import Mathlib

/-!
Verification of the NovelTranslate translation engine.

This file shallowly embeds the core of the repository — `app/core/translator.py`
(the model adapter and attempt policy) and `app/core/translation_orchestrator.py`
(the concurrency coordinator) — as executable Lean definitions, and proves or
refutes the specification's claims about them.

Modelling conventions:
- Python strings that may be `None` are `Option String`; Python truthiness of
  such a value is `truthyS` (`None` and `""` are falsy).
- Network calls are modelled by an environment `Env` assigning a provider
  response to each call index; every function that may call a provider threads
  a call log (`List ProviderCall`) recording, in order, the provider model,
  text and prompt of each call actually made.
- The Python helpers `_translate_openai` / `_translate_gemini` catch every
  exception and convert it to a returned `TranslationResult`, so the embedded
  helpers are total functions with no exception channel.
- The orchestrator's concurrent run is modelled by a small-step relation
  `RunStep` whose atomic steps are exactly the atomic sections of the source:
  the un-locked cancellation check at translation_orchestrator.py:244, the
  locked status write at line 247-248, the locked outcome section at lines
  260-294, and `cancel_translation` (lines 100-104).
-/

namespace NovelTranslate

/-- Python truthiness of an optional string: `None` and `""` are falsy. -/
def truthyS : Option String → Bool
  | none => false
  | some s => !(s = "")

/-- ASCII whitespace as stripped by Python's `str.strip()`
(space, tab, newline, carriage return, vertical tab, form feed). -/
def isPySpace (c : Char) : Bool :=
  c = ' ' || c = '\t' || c = '\n' || c = '\r' || c = '\x0b' || c = '\x0c'

/-- `not text or not text.strip()`: the string is empty or whitespace-only. -/
def pyBlank (s : String) : Bool :=
  s.toList.all isPySpace

/-- `listStartsWith pre s` holds when `pre` is a prefix of `s`. -/
def listStartsWith : List Char → List Char → Bool
  | [], _ => true
  | _ :: _, [] => false
  | p :: ps, c :: cs => p = c && listStartsWith ps cs

/-- Python's `s.startswith(pre)`. -/
def pyStartswith (s pre : String) : Bool :=
  listStartsWith pre.toList s.toList

/-- `strContainsAux hay needle`: `needle` occurs as a contiguous run in `hay`. -/
def strContainsAux : List Char → List Char → Bool
  | [], needle => listStartsWith needle []
  | c :: cs, needle => listStartsWith needle (c :: cs) || strContainsAux cs needle

/-- Python's `needle in hay` substring test. -/
def strContains (hay needle : String) : Bool :=
  strContainsAux hay.toList needle.toList

/-- Python's `s.lower()` (ASCII). -/
def pyLower (s : String) : String :=
  s.map Char.toLower

/-! ## translator.py — data model -/

/-- `TranslationResult` dataclass (translator.py lines 27-35). -/
structure TranslationResult where
  success : Bool
  text : Option String := none
  error_message : Option String := none
  model_used : Option String := none
  tokens_used : Option Nat := none
deriving DecidableEq, Repr

/-- `self.max_retries = 3` (translator.py line 43). -/
def max_retries : Nat := 3

/-- `self.retry_delay = 2` seconds (translator.py line 44). -/
def retry_delay : Nat := 2

/-- Outcome of one OpenAI chat-completions call: either a response (whose
message content may be `None`) or one of the exceptions the source catches
(translator.py lines 179-194). -/
inductive OpenAIResponse where
  | ok (content : Option String) (tokens : Option Nat)
  | authError
  | rateLimit
  | apiError (msg : String)
  | exc (msg : String)
deriving DecidableEq, Repr

/-- Outcome of one Gemini generate-content call: a response (whose text may be
`None` or empty) or an exception message (translator.py lines 221-268). -/
inductive GeminiResponse where
  | ok (text : Option String)
  | exc (msg : String)
deriving DecidableEq, Repr

/-- `(env.openai n).isOk`: the response is a normal API response. -/
def OpenAIResponse.isOk : OpenAIResponse → Bool
  | .ok _ _ => true
  | _ => false

/-- The Gemini response is a normal response with truthy (non-empty) text;
anything else makes `_translate_gemini` return a failure. -/
def GeminiResponse.isOkText : GeminiResponse → Bool
  | .ok t => truthyS t
  | _ => false

/-- One network call actually issued, recording the provider, the provider
model identifier sent on the wire, the text and the prompt. -/
inductive ProviderCall where
  | openai (model text prompt : String)
  | gemini (model text prompt : String)
deriving DecidableEq, Repr

/-- The external world: the response each provider would give to the n-th
network call of the run (n = number of calls already made). -/
structure Env where
  openai : Nat → OpenAIResponse
  gemini : Nat → GeminiResponse

/-- `Translator._translate_openai` (translator.py lines 143-194).
Returns the result together with the extended call log. -/
def translate_openai (env : Env) (log : List ProviderCall)
    (text model prompt : String) (api_key : Option String) :
    TranslationResult × List ProviderCall :=
  if !truthyS api_key then
    ({ success := false, error_message := some "OpenAI API key not provided" }, log)
  else
    let openai_model := if pyStartswith model "GPT-4" then "gpt-4o-mini" else model
    let log' := log ++ [ProviderCall.openai openai_model text prompt]
    match env.openai log.length with
    | .ok content tokens =>
        ({ success := true, text := content, model_used := some model,
           tokens_used := tokens }, log')
    | .authError =>
        ({ success := false, error_message := some "Invalid OpenAI API key" }, log')
    | .rateLimit =>
        ({ success := false, error_message := some "OpenAI rate limit exceeded" }, log')
    | .apiError m =>
        ({ success := false, error_message := some ("OpenAI API error: " ++ m) }, log')
    | .exc m =>
        ({ success := false, error_message := some ("OpenAI translation failed: " ++ m) }, log')

/-- `Translator._translate_gemini` (translator.py lines 196-268).
The provider model sent on the wire is the constant `"gemini-2.0-flash-001"`
regardless of the requested identifier (line 215). -/
def translate_gemini (env : Env) (log : List ProviderCall)
    (text model prompt : String) (api_key : Option String) :
    TranslationResult × List ProviderCall :=
  if !truthyS api_key then
    ({ success := false, error_message := some "Gemini API key not provided" }, log)
  else
    let gemini_model := "gemini-2.0-flash-001"
    let log' := log ++ [ProviderCall.gemini gemini_model text prompt]
    match env.gemini log.length with
    | .ok t =>
        if !truthyS t then
          ({ success := false, error_message := some "Gemini returned empty response" }, log')
        else
          ({ success := true, text := t, model_used := some model }, log')
    | .exc m =>
        let em := pyLower m
        if strContains em "api key" || strContains em "authentication"
            || strContains em "401" then
          ({ success := false, error_message := some "Invalid Gemini API key" }, log')
        else if strContains em "quota" || strContains em "limit"
            || strContains em "429" then
          ({ success := false, error_message := some "Gemini quota/rate limit exceeded" }, log')
        else
          ({ success := false, error_message := some ("Gemini translation failed: " ++ m) }, log')

/-- The body of the `for attempt in range(self.max_retries)` loop in
`Translator._attempt_translation` (translator.py lines 115-125): dispatch on
the model-name prefix and return the helper's result. Every branch returns. -/
def attempt_once (env : Env) (log : List ProviderCall)
    (text model prompt : String) (openai_key gemini_key : Option String) :
    TranslationResult × List ProviderCall :=
  if pyStartswith model "gpt" || pyStartswith model "GPT" then
    translate_openai env log text model prompt openai_key
  else if pyStartswith model "gemini" then
    translate_gemini env log text model prompt gemini_key
  else
    ({ success := false, error_message := some ("Unsupported model: " ++ model) }, log)

/-- The retry loop of `Translator._attempt_translation` (translator.py lines
114-141). The `except` clause can only run when the try-body raises; every
branch of the body returns, and both provider helpers catch all exceptions,
so the body never raises and the recursive case never reaches the next
iteration. The base case is the fall-through result of line 137-141. -/
def attempt_loop (env : Env) (text model prompt : String)
    (openai_key gemini_key : Option String) :
    Nat → List ProviderCall → TranslationResult × List ProviderCall
  | 0, log =>
      ({ success := false,
         error_message := some ("Failed after " ++ toString max_retries
           ++ " attempts with " ++ model),
         model_used := some model }, log)
  | _ + 1, log => attempt_once env log text model prompt openai_key gemini_key

/-- `Translator._attempt_translation` (translator.py lines 108-141). -/
def attempt_translation (env : Env) (log : List ProviderCall)
    (text model prompt : String) (openai_key gemini_key : Option String) :
    TranslationResult × List ProviderCall :=
  attempt_loop env text model prompt openai_key gemini_key max_retries log

/-- One entry of `config["fallback_chain"]` as read by `Translator.translate`
(translator.py lines 86-90): `fallback.get("llm")` and `fallback.get("prompt")`
where an absent prompt key falls back to the primary prompt. -/
structure Fallback where
  llm : Option String := none
  prompt : Option String := none
deriving DecidableEq, Repr

/-- The configuration dict fields read by `Translator.translate`
(translator.py lines 72-85): `config.get("primary_llm")`,
`config.get("prompt", "")` and `config.get("fallback_chain", [])`. -/
structure Config where
  primary_llm : Option String := none
  prompt : String := ""
  fallback_chain : List Fallback := []
deriving DecidableEq, Repr

/-- The fallback-chain `for` loop of `Translator.translate` (translator.py
lines 86-106), including the final aggregate failure of lines 103-106. -/
def translate_fallback_loop (env : Env) (text primary_prompt : String)
    (openai_key gemini_key : Option String) :
    List Fallback → List ProviderCall → TranslationResult × List ProviderCall
  | [], log =>
      ({ success := false,
         error_message :=
           some "All translation attempts failed. Check your API keys and model availability." },
       log)
  | fb :: rest, log =>
      if !truthyS fb.llm then
        translate_fallback_loop env text primary_prompt openai_key gemini_key rest log
      else
        let r := attempt_translation env log text (fb.llm.getD "")
          (fb.prompt.getD primary_prompt) openai_key gemini_key
        if r.1.success then r
        else translate_fallback_loop env text primary_prompt openai_key gemini_key rest r.2

/-- `Translator.translate` (translator.py lines 46-106). A falsy `config`
(`None` or an empty dict) is modelled as `none`. -/
def translate (env : Env) (log : List ProviderCall) (text : String)
    (config : Option Config) (openai_key gemini_key : Option String) :
    TranslationResult × List ProviderCall :=
  if pyBlank text then
    ({ success := false, error_message := some "Empty text provided" }, log)
  else
    match config with
    | none => ({ success := false, error_message := some "No configuration provided" }, log)
    | some cfg =>
        let primary_prompt := cfg.prompt
        if truthyS cfg.primary_llm then
          let r := attempt_translation env log text (cfg.primary_llm.getD "")
            primary_prompt openai_key gemini_key
          if r.1.success then r
          else translate_fallback_loop env text primary_prompt openai_key gemini_key
            cfg.fallback_chain r.2
        else
          translate_fallback_loop env text primary_prompt openai_key gemini_key
            cfg.fallback_chain log

/-! ## translation_orchestrator.py — data model -/

/-- The fields of one `chapter_meta` dict read or written by the orchestrator
(`status`, `original_text`, `translated_text`, `model_used`, `error`); an
absent key is `none` (for `original_text`, the `get` default `""`). -/
structure ChapterMeta where
  status : Option String := none
  original_text : String := ""
  translated_text : Option String := none
  model_used : Option String := none
  error : Option String := none
deriving DecidableEq, Repr

/-- The mutable fields of `TranslationOrchestrator` set in `__init__`
(translation_orchestrator.py lines 32-52), together with the `app_state`
fields the orchestrator reads (`active_config_name`,
`epub_data["chapters_meta"]`). `pause_event_set` models the
`threading.Event` `is_paused` (set in `__init__`, so initially not paused). -/
structure OrchestratorState where
  is_running : Bool := false
  pause_event_set : Bool := true
  should_cancel : Bool := false
  current_chapter : Nat := 0
  total_chapters : Nat := 0
  completed_chapters : Nat := 0
  failed_chapters : Nat := 0
  max_concurrent_chapters : Nat := 3
  active_config_name : Option String := none
  chapters : List ChapterMeta := []
deriving DecidableEq, Repr

/-- `TranslationOrchestrator.start_translation` (translation_orchestrator.py
lines 54-88), up to the point where the worker thread is spawned. `setup_ok`
is whether `_setup_project_directory()` succeeds (an external filesystem
outcome). Returns the updated state and the boolean the method returns.
Note that on setup failure the method returns `False` after the state was
already mutated at lines 68-74, and nothing resets `is_running`: the
`finally` that clears it (line 223-224) belongs to the worker, which is
never started on this path. -/
def start_translation (s : OrchestratorState) (setup_ok : Bool) :
    OrchestratorState × Bool :=
  if s.is_running then (s, false)
  else if !truthyS s.active_config_name then (s, false)
  else if s.chapters.isEmpty then (s, false)
  else
    let s' := { s with
      is_running := true,
      should_cancel := false,
      pause_event_set := true,
      current_chapter := 0,
      total_chapters := s.chapters.length,
      completed_chapters := 0,
      failed_chapters := 0 }
    if !setup_ok then (s', false)
    else (s', true)

/-- `TranslationOrchestrator._translate_chapter` (translation_orchestrator.py
lines 304-319): reject an empty chapter text, otherwise call
`Translator.translate` with the two API keys. -/
def translate_chapter (env : Env) (log : List ProviderCall) (meta : ChapterMeta)
    (config : Option Config) (openai_key gemini_key : Option String) :
    TranslationResult × List ProviderCall :=
  if meta.original_text = "" then
    ({ success := false, error_message := some "No original text found" }, log)
  else
    translate env log meta.original_text config openai_key gemini_key

/-- The `chapters_to_translate` list built by `_translation_worker`
(translation_orchestrator.py lines 126-130): the enumerated chapters whose
`status` is not `"completed"`. -/
def chapters_to_translate (chapters : List ChapterMeta) : List (Nat × ChapterMeta) :=
  chapters.enum.filter (fun ic => decide (ic.2.status ≠ some "completed"))

/-- Where a dispatched chapter job stands in
`_translate_chapter_with_updates` (translation_orchestrator.py lines 226-302):
`notStarted` — before the cancellation check at line 244;
`ready` — passed that check, has not yet written `in_progress` (line 248);
`running` — wrote `in_progress`, translation in flight;
`done` — the locked outcome section (lines 260-294) ran;
`exited` — returned `False` at line 241/245 after observing cancellation. -/
inductive JobPhase where
  | notStarted
  | ready
  | running
  | done
  | exited
deriving DecidableEq, Repr

/-- Replace the `status` of the chapter at the given index
(`chapter_meta["status"] = ...` under `chapters_lock`). -/
def setChapterStatus : List ChapterMeta → Nat → String → List ChapterMeta
  | [], _, _ => []
  | c :: cs, 0, st => { c with status := some st } :: cs
  | c :: cs, n + 1, st => c :: setChapterStatus cs n st

/-- The `status` of the chapter at the given index. -/
def chapterStatus : List ChapterMeta → Nat → Option String
  | [], _ => none
  | c :: _, 0 => c.status
  | _ :: cs, n + 1 => chapterStatus cs n

/-- The shared state of one translation run, entered after
`_translation_worker` has built `chapters_to_translate` and submitted the
jobs: the cooperative cancel flag, the two counters and the total (lines
68-74), the shared chapter list, and one `(chapter index, phase)` record per
dispatched job. -/
structure RunState where
  should_cancel : Bool
  completed_chapters : Nat
  failed_chapters : Nat
  total_chapters : Nat
  chapters : List ChapterMeta
  jobs : List (Nat × JobPhase)
deriving DecidableEq, Repr

/-- The run state right after `start_translation` reset the counters (lines
68-74) and the worker submitted every non-completed chapter (lines 147-163).
Folding submission into the model is sound because the cancel flag is
monotone during a run: a job skipped at submission time (line 152) would
also observe the flag at its line-244 check and exit. -/
def initRunState (chapters : List ChapterMeta) : RunState :=
  { should_cancel := false,
    completed_chapters := 0,
    failed_chapters := 0,
    total_chapters := chapters.length,
    chapters := chapters,
    jobs := (chapters_to_translate chapters).map (fun ic => (ic.1, JobPhase.notStarted)) }

/-- The locked outcome section of `_translate_chapter_with_updates`
(translation_orchestrator.py lines 260-294) applied to the chapter at the
given index: on success write `translated_text`, status `"completed"` and
`model_used` (lines 262-264); on failure write status `"error"` and the
error message (lines 283-284). -/
def applyOutcome : List ChapterMeta → Nat → TranslationResult → List ChapterMeta
  | [], _, _ => []
  | c :: cs, 0, r =>
      (if r.success then
        { c with translated_text := r.text, status := some "completed",
                 model_used := r.model_used }
      else
        { c with status := some "error", error := r.error_message }) :: cs
  | c :: cs, n + 1, r => c :: applyOutcome cs n r

/-- One atomic step of a translation run. Each constructor is one atomic
section of the source (GIL-atomic read or `chapters_lock`-guarded block):
- `cancel`: `cancel_translation` sets the cancel flag (lines 100-104);
- `check`: the un-locked cancellation check at line 244 — the job exits if
  the flag is set, otherwise proceeds (the pause-wait loop of lines 239-242
  changes no shared state and is folded into this step);
- `mark`: the locked `status = "in_progress"` write at lines 247-248;
- `finish`: the locked outcome section at lines 260-294 — writes the final
  chapter fields and increments exactly one counter, `r` being the
  translation result (an external outcome). -/
inductive RunStep : RunState → RunState → Prop
  | cancel (s : RunState) :
      RunStep s { s with should_cancel := true }
  | check (s : RunState) (j idx : Nat)
      (h : s.jobs[j]? = some (idx, JobPhase.notStarted)) :
      RunStep s { s with jobs := (s.jobs.set j
        (idx, if s.should_cancel then JobPhase.exited else JobPhase.ready)) }
  | mark (s : RunState) (j idx : Nat)
      (h : s.jobs[j]? = some (idx, JobPhase.ready)) :
      RunStep s { s with
        jobs := s.jobs.set j (idx, JobPhase.running),
        chapters := setChapterStatus s.chapters idx "in_progress" }
  | finish (s : RunState) (j idx : Nat) (r : TranslationResult)
      (h : s.jobs[j]? = some (idx, JobPhase.running)) :
      RunStep s { s with
        jobs := s.jobs.set j (idx, JobPhase.done),
        chapters := applyOutcome s.chapters idx r,
        completed_chapters := s.completed_chapters + (if r.success then 1 else 0),
        failed_chapters := s.failed_chapters + (if r.success then 0 else 1) }

/-- The run states reachable from the start of a run over `chapters`. -/
def Reachable (chapters : List ChapterMeta) (s : RunState) : Prop :=
  Relation.ReflTransGen RunStep (initRunState chapters) s

/-- Number of jobs whose locked outcome section has run. -/
def countDone (jobs : List (Nat × JobPhase)) : Nat :=
  jobs.countP (fun j => decide (j.2 = JobPhase.done))

/-! ## Helper lemmas: string prefixes -/

/-- Prefix transitivity: a prefix of a prefix is a prefix. -/
theorem listStartsWith_trans {p q r : List Char}
    (h1 : listStartsWith p q = true) (h2 : listStartsWith q r = true) :
    listStartsWith p r = true := by
  induction p generalizing q r with
  | nil => simp [listStartsWith]
  | cons a as ih =>
    cases q with
    | nil => simp [listStartsWith] at h1
    | cons b bs =>
      cases r with
      | nil => simp [listStartsWith] at h2
      | cons c cs =>
        simp only [listStartsWith, Bool.and_eq_true, decide_eq_true_eq] at h1 h2 ⊢
        exact ⟨h1.1.trans h2.1, ih h1.2 h2.2⟩

/-- Two prefixes of the same list are comparable: the shorter is a prefix of
the longer. -/
theorem listStartsWith_comparable {p q r : List Char}
    (h1 : listStartsWith p r = true) (h2 : listStartsWith q r = true)
    (hlen : p.length ≤ q.length) : listStartsWith p q = true := by
  induction p generalizing q r with
  | nil => simp [listStartsWith]
  | cons a as ih =>
    cases r with
    | nil => simp [listStartsWith] at h1
    | cons c cs =>
      cases q with
      | nil => simp at hlen
      | cons b bs =>
        simp only [listStartsWith, Bool.and_eq_true, decide_eq_true_eq] at h1 h2 ⊢
        refine ⟨h1.1.trans h2.1.symm, ih h1.2 h2.2 ?_⟩
        simpa using hlen

/-- An identifier starting with `"GPT-4"` starts with `"GPT"`. -/
theorem pyStartswith_GPT_of_GPT4 {m : String}
    (h : pyStartswith m "GPT-4" = true) : pyStartswith m "GPT" = true :=
  listStartsWith_trans (p := "GPT".toList) (q := "GPT-4".toList) (by decide) h

/-- An identifier starting with `"gemini"` does not start with `"gpt"`. -/
theorem pyStartswith_not_gpt_of_gemini {m : String}
    (h : pyStartswith m "gemini" = true) : pyStartswith m "gpt" = false := by
  cases hg : pyStartswith m "gpt" with
  | false => rfl
  | true =>
    have := listStartsWith_comparable (p := "gpt".toList) (q := "gemini".toList)
      hg h (by decide)
    simp [listStartsWith] at this

/-- An identifier starting with `"gemini"` does not start with `"GPT"`. -/
theorem pyStartswith_not_GPT_of_gemini {m : String}
    (h : pyStartswith m "gemini" = true) : pyStartswith m "GPT" = false := by
  cases hg : pyStartswith m "GPT" with
  | false => rfl
  | true =>
    have := listStartsWith_comparable (p := "GPT".toList) (q := "gemini".toList)
      hg h (by decide)
    simp [listStartsWith] at this

/-! ## Helper lemmas: the model adapter -/

/-- Since `max_retries = 3 > 0` and every branch of the loop body returns,
`_attempt_translation` is its loop body run once. -/
theorem attempt_translation_eq_once (env : Env) (log : List ProviderCall)
    (text model prompt : String) (okey gkey : Option String) :
    attempt_translation env log text model prompt okey gkey =
      attempt_once env log text model prompt okey gkey := rfl

/-- A successful OpenAI helper call records the requested identifier in
`model_used`. -/
theorem translate_openai_success_model_used (env : Env) (log : List ProviderCall)
    (text model prompt : String) (k : Option String)
    (h : (translate_openai env log text model prompt k).1.success = true) :
    (translate_openai env log text model prompt k).1.model_used = some model := by
  unfold translate_openai at h ⊢
  split at h
  · simp_all
  · cases henv : env.openai log.length <;> simp_all

/-- A successful Gemini helper call records the requested identifier in
`model_used`. -/
theorem translate_gemini_success_model_used (env : Env) (log : List ProviderCall)
    (text model prompt : String) (k : Option String)
    (h : (translate_gemini env log text model prompt k).1.success = true) :
    (translate_gemini env log text model prompt k).1.model_used = some model := by
  unfold translate_gemini at h ⊢
  split at h
  · simp_all
  · cases henv : env.gemini log.length with
    | ok t => by_cases ht : truthyS t = true <;> simp_all
    | exc m => simp only [henv] at h; split_ifs at h

/-- A successful attempt records the requested identifier in `model_used`. -/
theorem attempt_success_model_used (env : Env) (log : List ProviderCall)
    (text model prompt : String) (okey gkey : Option String)
    (h : (attempt_translation env log text model prompt okey gkey).1.success = true) :
    (attempt_translation env log text model prompt okey gkey).1.model_used = some model := by
  rw [attempt_translation_eq_once] at h ⊢
  by_cases h1 : (pyStartswith model "gpt" || pyStartswith model "GPT") = true
  · simp only [attempt_once, h1, if_true] at h ⊢
    exact translate_openai_success_model_used env log text model prompt okey h
  · by_cases h2 : pyStartswith model "gemini" = true
    · simp only [attempt_once, h1, h2, if_true, if_false, Bool.false_eq_true] at h ⊢
      exact translate_gemini_success_model_used env log text model prompt gkey h
    · simp only [attempt_once, h1, h2, if_false, Bool.false_eq_true] at h ⊢

/-- An environment in which every provider call fails: no OpenAI call returns
a normal response, and no Gemini call returns a non-empty text. -/
def EnvAllFail (env : Env) : Prop :=
  (∀ n, (env.openai n).isOk = false) ∧ (∀ n, (env.gemini n).isOkText = false)

/-- Under an all-failing environment, no attempt succeeds. -/
theorem attempt_fail_of_envAllFail {env : Env} (hf : EnvAllFail env)
    (log : List ProviderCall) (text model prompt : String)
    (okey gkey : Option String) :
    (attempt_translation env log text model prompt okey gkey).1.success = false := by
  rw [attempt_translation_eq_once]
  unfold attempt_once translate_openai translate_gemini
  split
  · split
    · rfl
    · have := hf.1 log.length
      cases henv : env.openai log.length <;> simp_all [OpenAIResponse.isOk]
  · split
    · split
      · rfl
      · have := hf.2 log.length
        cases henv : env.gemini log.length with
        | ok t => simp_all [GeminiResponse.isOkText]
        | exc m => simp only; split_ifs <;> rfl
    · rfl

/-- One attempt makes at most one provider call: the log grows by at most one
entry. -/
theorem attempt_log_length (env : Env) (log : List ProviderCall)
    (text model prompt : String) (okey gkey : Option String) :
    (attempt_translation env log text model prompt okey gkey).2.length ≤ log.length + 1 := by
  rw [attempt_translation_eq_once]
  unfold attempt_once translate_openai translate_gemini
  split
  · split
    · simp
    · cases henv : env.openai log.length <;> simp
  · split
    · split
      · simp
      · cases henv : env.gemini log.length with
        | ok t => by_cases ht : truthyS t = true <;> simp_all
        | exc m => simp only; split_ifs <;> simp
    · simp

/-- A failed OpenAI helper call always carries an error message. -/
theorem translate_openai_failure_message (env : Env) (log : List ProviderCall)
    (text model prompt : String) (k : Option String)
    (h : (translate_openai env log text model prompt k).1.success = false) :
    ((translate_openai env log text model prompt k).1.error_message).isSome = true := by
  unfold translate_openai at h ⊢
  split
  · rfl
  · cases henv : env.openai log.length <;> simp_all

/-- A failed Gemini helper call always carries an error message. -/
theorem translate_gemini_failure_message (env : Env) (log : List ProviderCall)
    (text model prompt : String) (k : Option String)
    (h : (translate_gemini env log text model prompt k).1.success = false) :
    ((translate_gemini env log text model prompt k).1.error_message).isSome = true := by
  unfold translate_gemini at h ⊢
  split
  · rfl
  · cases henv : env.gemini log.length with
    | ok t => by_cases ht : truthyS t = true <;> simp_all
    | exc m => simp only [henv]; split_ifs <;> rfl

/-- An environment in which every OpenAI call raises an authentication error
and every Gemini call raises; used as a concrete always-failing world. -/
def envFailAll : Env :=
  { openai := fun _ => OpenAIResponse.authError,
    gemini := fun _ => GeminiResponse.exc "boom" }

/-! ## Claims about translator.py -/

/-- C1: the spec says a model that fails every attempt is called exactly
`max_retries` (3) times with backoff between attempts. In the code every
branch of the retry loop's try-body returns, and both provider helpers catch
all exceptions and return failure results instead of raising, so a failing
candidate is called exactly once and the loop's later iterations (and the
"Failed after 3 attempts" fall-through of translator.py lines 137-141) are
unreachable. First part: a concrete always-failing candidate makes exactly
one provider call. Second part: no attempt ever makes more than one call. -/
theorem retry_budget_single_call :
    ((attempt_translation envFailAll [] "hello" "gpt-4o" "p" (some "sk") (some "gk")).2.length = 1 ∧
     (attempt_translation envFailAll [] "hello" "gpt-4o" "p" (some "sk") (some "gk")).1.success = false) ∧
    ∀ (env : Env) (log : List ProviderCall) (text model prompt : String)
      (okey gkey : Option String),
      (attempt_translation env log text model prompt okey gkey).2.length ≤ log.length + 1 :=
  ⟨⟨by decide, by decide⟩, attempt_log_length⟩

/-- The aggregate failure returned when the whole candidate chain is
exhausted (translator.py lines 103-106): names no model. -/
theorem fallback_loop_all_fail {env : Env} (hf : EnvAllFail env)
    (text pp : String) (okey gkey : Option String) :
    ∀ (chain : List Fallback) (log : List ProviderCall),
      (translate_fallback_loop env text pp okey gkey chain log).1 =
        { success := false,
          error_message :=
            some "All translation attempts failed. Check your API keys and model availability." } := by
  intro chain
  induction chain with
  | nil => intro log; rfl
  | cons fb rest ih =>
    intro log
    by_cases hfb : truthyS fb.llm = true
    · have hfail := attempt_fail_of_envAllFail hf log text (fb.llm.getD "")
        (fb.prompt.getD pp) okey gkey
      simp only [translate_fallback_loop, hfb, Bool.not_true, Bool.false_eq_true,
        if_false, hfail, ih]
    · simp only [Bool.not_eq_true] at hfb
      simp only [translate_fallback_loop, hfb, Bool.not_false, if_true, ih]

/-- C5: with non-blank text and a present config, the attempt policy:
(1) goes straight to the fallback chain when the primary model is unset;
(2) goes to the fallback chain when the primary model's attempt fails;
(3) skips a fallback entry with an unset model without any attempt;
(4) returns the first successful fallback's result immediately, with that
fallback's model recorded in `model_used`;
(5) moves past a failed fallback to the rest of the chain, in order;
(6) when every provider call fails, returns the aggregate failure that names
no model and advises checking API keys and model availability. -/
theorem translate_fallback_policy (env : Env) (text : String) (cfg : Config)
    (okey gkey : Option String) (hText : pyBlank text = false) :
    (truthyS cfg.primary_llm = false →
      ∀ log, translate env log text (some cfg) okey gkey =
        translate_fallback_loop env text cfg.prompt okey gkey cfg.fallback_chain log) ∧
    (∀ (log : List ProviderCall), truthyS cfg.primary_llm = true →
      (attempt_translation env log text (cfg.primary_llm.getD "") cfg.prompt okey gkey).1.success = false →
      translate env log text (some cfg) okey gkey =
        translate_fallback_loop env text cfg.prompt okey gkey cfg.fallback_chain
          (attempt_translation env log text (cfg.primary_llm.getD "") cfg.prompt okey gkey).2) ∧
    (∀ (fb : Fallback) (rest : List Fallback) (log : List ProviderCall),
      truthyS fb.llm = false →
      translate_fallback_loop env text cfg.prompt okey gkey (fb :: rest) log =
        translate_fallback_loop env text cfg.prompt okey gkey rest log) ∧
    (∀ (fb : Fallback) (rest : List Fallback) (log : List ProviderCall),
      truthyS fb.llm = true →
      (attempt_translation env log text (fb.llm.getD "") (fb.prompt.getD cfg.prompt) okey gkey).1.success = true →
      translate_fallback_loop env text cfg.prompt okey gkey (fb :: rest) log =
        attempt_translation env log text (fb.llm.getD "") (fb.prompt.getD cfg.prompt) okey gkey ∧
      (translate_fallback_loop env text cfg.prompt okey gkey (fb :: rest) log).1.model_used =
        some (fb.llm.getD "")) ∧
    (∀ (fb : Fallback) (rest : List Fallback) (log : List ProviderCall),
      truthyS fb.llm = true →
      (attempt_translation env log text (fb.llm.getD "") (fb.prompt.getD cfg.prompt) okey gkey).1.success = false →
      translate_fallback_loop env text cfg.prompt okey gkey (fb :: rest) log =
        translate_fallback_loop env text cfg.prompt okey gkey rest
          (attempt_translation env log text (fb.llm.getD "") (fb.prompt.getD cfg.prompt) okey gkey).2) ∧
    (EnvAllFail env →
      ∀ (cfg' : Config) (log : List ProviderCall),
        (translate env log text (some cfg') okey gkey).1 =
          { success := false,
            error_message :=
              some "All translation attempts failed. Check your API keys and model availability." }) := by
  refine ⟨?_, ?_, ?_, ?_, ?_, ?_⟩
  · intro hp log
    simp only [translate, hText, Bool.false_eq_true, if_false, hp]
  · intro log hp hfail
    simp only [translate, hText, Bool.false_eq_true, if_false, hp, if_true, hfail]
  · intro fb rest log hfb
    simp only [translate_fallback_loop, hfb, Bool.not_false, if_true]
  · intro fb rest log hfb hsucc
    constructor
    · simp only [translate_fallback_loop, hfb, Bool.not_true, Bool.false_eq_true,
        if_false, hsucc, if_true]
    · simp only [translate_fallback_loop, hfb, Bool.not_true, Bool.false_eq_true,
        if_false, hsucc, if_true]
      exact attempt_success_model_used env log text (fb.llm.getD "")
        (fb.prompt.getD cfg.prompt) okey gkey hsucc
  · intro fb rest log hfb hfail
    simp only [translate_fallback_loop, hfb, Bool.not_true, Bool.false_eq_true,
      if_false, hfail]
  · intro hf cfg' log
    by_cases hp : truthyS cfg'.primary_llm = true
    · have hfail := attempt_fail_of_envAllFail hf log text (cfg'.primary_llm.getD "")
        cfg'.prompt okey gkey
      simp only [translate, hText, Bool.false_eq_true, if_false, hp, if_true, hfail,
        fallback_loop_all_fail hf]
    · simp only [Bool.not_eq_true] at hp
      simp only [translate, hText, Bool.false_eq_true, if_false, hp,
        fallback_loop_all_fail hf]

/-- Witness for C5 at a concrete input: with an unset primary model the
policy is exactly the fallback-chain loop. -/
theorem translate_fallback_policy_witness :
    translate envFailAll [] "hi" (some { primary_llm := none }) none none =
      translate_fallback_loop envFailAll "hi" "" none none [] [] :=
  (translate_fallback_policy envFailAll "hi" { primary_llm := none } none none
    (by decide)).1 (by decide) []

/-- C6: empty or whitespace-only text, or an absent config, is rejected
immediately with a descriptive message and zero provider calls
(translator.py lines 63-69). -/
theorem translate_rejects_empty_and_missing (env : Env) (log : List ProviderCall)
    (text : String) (config : Option Config) (okey gkey : Option String)
    (h : pyBlank text = true ∨ config = none) :
    (translate env log text config okey gkey).2 = log ∧
    (translate env log text config okey gkey).1.success = false ∧
    (translate env log text config okey gkey).1.error_message =
      some (if pyBlank text then "Empty text provided" else "No configuration provided") := by
  rcases h with h | h
  · simp [translate, h]
  · subst h
    by_cases hb : pyBlank text = true <;> simp [translate, hb]

/-- Witness for C6: whitespace-only text is rejected with no call made. -/
theorem translate_rejects_witness :
    (translate envFailAll [] " " (some {}) none none).2 = [] ∧
    (translate envFailAll [] " " (some {}) none none).1.success = false ∧
    (translate envFailAll [] " " (some {}) none none).1.error_message =
      some (if pyBlank " " then "Empty text provided" else "No configuration provided") :=
  translate_rejects_empty_and_missing envFailAll [] " " (some {}) none none
    (Or.inl (by decide))

/-- C7: a missing (None or empty) credential for the matched provider family
yields a "key not provided" outcome with zero network calls (translator.py
lines 148-151 and 202-205). -/
theorem missing_key_no_network_call (env : Env) (log : List ProviderCall)
    (text model prompt : String) (okey gkey : Option String) :
    ((pyStartswith model "gpt" || pyStartswith model "GPT") = true →
      truthyS okey = false →
      attempt_translation env log text model prompt okey gkey =
        ({ success := false, error_message := some "OpenAI API key not provided" }, log)) ∧
    (pyStartswith model "gpt" = false → pyStartswith model "GPT" = false →
      pyStartswith model "gemini" = true → truthyS gkey = false →
      attempt_translation env log text model prompt okey gkey =
        ({ success := false, error_message := some "Gemini API key not provided" }, log)) ∧
    strContains "OpenAI API key not provided" "key not provided" = true ∧
    strContains "Gemini API key not provided" "key not provided" = true := by
  refine ⟨?_, ?_, by decide, by decide⟩
  · intro h1 h2
    rw [attempt_translation_eq_once]
    simp [attempt_once, h1, translate_openai, h2]
  · intro h1 h2 h3 h4
    rw [attempt_translation_eq_once]
    simp [attempt_once, h1, h2, h3, translate_gemini, h4]

/-- Witness for C7: both provider families, with the matching key absent. -/
theorem missing_key_witness :
    attempt_translation envFailAll [] "t" "gpt-4" "" none (some "g") =
      ({ success := false, error_message := some "OpenAI API key not provided" }, []) ∧
    attempt_translation envFailAll [] "t" "gemini-pro" "" (some "o") none =
      ({ success := false, error_message := some "Gemini API key not provided" }, []) :=
  ⟨(missing_key_no_network_call envFailAll [] "t" "gpt-4" "" none (some "g")).1
      (by decide) (by decide),
   (missing_key_no_network_call envFailAll [] "t" "gemini-pro" "" (some "o") none).2.1
      (by decide) (by decide) (by decide) (by decide)⟩

/-- C8: a model identifier matching neither provider family yields an
"Unsupported model" outcome with zero provider calls (translator.py lines
122-125); and the adapter never raises — modelled by its totality — with
every non-success outcome carrying an error message. -/
theorem adapter_unsupported_and_no_raise (env : Env) (log : List ProviderCall)
    (text model prompt : String) (okey gkey : Option String) :
    (pyStartswith model "gpt" = false → pyStartswith model "GPT" = false →
      pyStartswith model "gemini" = false →
      attempt_translation env log text model prompt okey gkey =
        ({ success := false, error_message := some ("Unsupported model: " ++ model) }, log)) ∧
    ((attempt_translation env log text model prompt okey gkey).1.success = false →
      ((attempt_translation env log text model prompt okey gkey).1.error_message).isSome = true) := by
  constructor
  · intro h1 h2 h3
    rw [attempt_translation_eq_once]
    simp [attempt_once, h1, h2, h3]
  · intro h
    rw [attempt_translation_eq_once] at h ⊢
    by_cases h1 : (pyStartswith model "gpt" || pyStartswith model "GPT") = true
    · simp only [attempt_once, h1, if_true] at h ⊢
      exact translate_openai_failure_message env log text model prompt okey h
    · by_cases h2 : pyStartswith model "gemini" = true
      · simp only [attempt_once, h1, h2, Bool.false_eq_true, if_false, if_true] at h ⊢
        exact translate_gemini_failure_message env log text model prompt gkey h
      · simp only [attempt_once, h1, h2, Bool.false_eq_true, if_false] at h ⊢
        rfl

/-- Witness for C8: an identifier from neither family contacts no provider. -/
theorem adapter_unsupported_witness :
    attempt_translation envFailAll [] "t" "claude-3" "" (some "o") (some "g") =
      ({ success := false, error_message := some ("Unsupported model: " ++ "claude-3") }, []) :=
  (adapter_unsupported_and_no_raise envFailAll [] "t" "claude-3" "" (some "o") (some "g")).1
    (by decide) (by decide) (by decide)

/-- C10: the provider model actually invoked can differ from the requested
identifier — a `"GPT-4"`-prefixed identifier is sent to OpenAI as
`"gpt-4o-mini"` (translator.py line 157) and any `"gemini"`-prefixed
identifier is sent to Gemini as `"gemini-2.0-flash-001"` (line 215) — yet a
successful outcome's `model_used` is the originally requested identifier. -/
theorem model_identifier_mapping (env : Env) (log : List ProviderCall)
    (text model prompt : String) (okey gkey : Option String) :
    (pyStartswith model "GPT-4" = true → truthyS okey = true →
      (attempt_translation env log text model prompt okey gkey).2 =
        log ++ [ProviderCall.openai "gpt-4o-mini" text prompt]) ∧
    (pyStartswith model "gemini" = true → truthyS gkey = true →
      (attempt_translation env log text model prompt okey gkey).2 =
        log ++ [ProviderCall.gemini "gemini-2.0-flash-001" text prompt]) ∧
    ((attempt_translation env log text model prompt okey gkey).1.success = true →
      (attempt_translation env log text model prompt okey gkey).1.model_used = some model) := by
  refine ⟨?_, ?_, attempt_success_model_used env log text model prompt okey gkey⟩
  · intro h1 h2
    have hgpt := pyStartswith_GPT_of_GPT4 h1
    rw [attempt_translation_eq_once]
    simp only [attempt_once, hgpt, Bool.or_true, if_true]
    unfold translate_openai
    simp only [h2, Bool.not_true, Bool.false_eq_true, if_false, h1, if_true]
    cases env.openai log.length <;> rfl
  · intro h1 h2
    have hg1 := pyStartswith_not_gpt_of_gemini h1
    have hg2 := pyStartswith_not_GPT_of_gemini h1
    rw [attempt_translation_eq_once]
    simp only [attempt_once, hg1, hg2, Bool.or_self, Bool.false_eq_true, if_false,
      h1, if_true]
    unfold translate_gemini
    simp only [h2, Bool.not_true, Bool.false_eq_true, if_false]
    cases env.gemini log.length with
    | ok t => by_cases ht : truthyS t = true <;> simp [ht]
    | exc m => simp only; split_ifs <;> rfl

/-- Witness for C10: `"GPT-4"` is called as `gpt-4o-mini`, `"gemini-1.5-pro"`
as `gemini-2.0-flash-001`. -/
theorem model_identifier_mapping_witness :
    (attempt_translation envFailAll [] "t" "GPT-4" "p" (some "o") (some "g")).2 =
      [] ++ [ProviderCall.openai "gpt-4o-mini" "t" "p"] ∧
    (attempt_translation envFailAll [] "t" "gemini-1.5-pro" "p" (some "o") (some "g")).2 =
      [] ++ [ProviderCall.gemini "gemini-2.0-flash-001" "t" "p"] :=
  ⟨(model_identifier_mapping envFailAll [] "t" "GPT-4" "p" (some "o") (some "g")).1
      (by decide) (by decide),
   (model_identifier_mapping envFailAll [] "t" "gemini-1.5-pro" "p" (some "o") (some "g")).2.1
      (by decide) (by decide)⟩

/-! ## Helper lemmas: lists -/

/-- Overwriting one known element shifts `countP` by the difference of the
old and new element's contribution. -/
theorem countP_set_eq {α : Type} (p : α → Bool) (l : List α) :
    ∀ (j : Nat) (a b : α), l[j]? = some a →
      List.countP p (l.set j b) + (if p a then 1 else 0) =
        List.countP p l + (if p b then 1 else 0) := by
  induction l with
  | nil => intro j a b h; simp at h
  | cons x xs ih =>
    intro j a b h
    cases j with
    | zero =>
      simp only [List.getElem?_cons_zero, Option.some.injEq] at h
      subst h
      simp only [List.set_cons_zero, List.countP_cons]
      omega
    | succ k =>
      simp only [List.getElem?_cons_succ] at h
      simp only [List.set_cons_succ, List.countP_cons]
      have := ih k a b h
      omega

/-- Overwriting a pair without changing its first component preserves the
list of first components. -/
theorem mapFst_set {α β : Type} (l : List (α × β)) :
    ∀ (j : Nat) (idx : α) (ph ph' : β), l[j]? = some (idx, ph) →
      (l.set j (idx, ph')).map Prod.fst = l.map Prod.fst := by
  induction l with
  | nil => intro j idx ph ph' h; simp at h
  | cons x xs ih =>
    intro j idx ph ph' h
    cases j with
    | zero =>
      simp only [List.getElem?_cons_zero, Option.some.injEq] at h
      simp [List.set_cons_zero, h]
    | succ k =>
      simp only [List.getElem?_cons_succ] at h
      simp only [List.set_cons_succ, List.map_cons]
      rw [ih k idx ph ph' h]

/-- In a duplicate-free list, positions holding the same value coincide. -/
theorem nodup_getElem?_inj {α : Type} {l : List α} (hl : l.Nodup) :
    ∀ {i j : Nat} {a : α}, l[i]? = some a → l[j]? = some a → i = j := by
  induction l with
  | nil => intro i j a h; simp at h
  | cons x xs ih =>
    intro i j a hi hj
    rcases List.nodup_cons.mp hl with ⟨hx, hxs⟩
    cases i with
    | zero =>
      cases j with
      | zero => rfl
      | succ m =>
        simp only [List.getElem?_cons_zero, Option.some.injEq] at hi
        simp only [List.getElem?_cons_succ] at hj
        subst hi
        exact absurd (List.getElem?_mem hj) hx
    | succ k =>
      cases j with
      | zero =>
        simp only [List.getElem?_cons_zero, Option.some.injEq] at hj
        simp only [List.getElem?_cons_succ] at hi
        subst hj
        exact absurd (List.getElem?_mem hi) hx
      | succ m =>
        simp only [List.getElem?_cons_succ] at hi hj
        exact congrArg Nat.succ (ih hxs hi hj)

/-- The chapter indices of the dispatched jobs are distinct (they are a
sub-sequence of `range`). -/
theorem chapters_to_translate_fst_nodup (cs : List ChapterMeta) :
    ((chapters_to_translate cs).map Prod.fst).Nodup := by
  have hsub : (chapters_to_translate cs).Sublist cs.enum := List.filter_sublist _
  have h2 := hsub.map Prod.fst
  rw [List.enum_map_fst] at h2
  exact h2.nodup (List.nodup_range cs.length)

/-- `setChapterStatus` leaves every other chapter's status unchanged. -/
theorem chapterStatus_setChapterStatus_ne (cs : List ChapterMeta) :
    ∀ (i k : Nat) (st : String), k ≠ i →
      chapterStatus (setChapterStatus cs i st) k = chapterStatus cs k := by
  induction cs with
  | nil => intro i k st _; rfl
  | cons c cs ih =>
    intro i k st hne
    cases i with
    | zero =>
      cases k with
      | zero => exact absurd rfl hne
      | succ m => rfl
    | succ n =>
      cases k with
      | zero => rfl
      | succ m => exact ih n m st (by omega)

/-- `applyOutcome` leaves every other chapter's status unchanged. -/
theorem chapterStatus_applyOutcome_ne (cs : List ChapterMeta) :
    ∀ (i k : Nat) (r : TranslationResult), k ≠ i →
      chapterStatus (applyOutcome cs i r) k = chapterStatus cs k := by
  induction cs with
  | nil => intro i k r _; rfl
  | cons c cs ih =>
    intro i k r hne
    cases i with
    | zero =>
      cases k with
      | zero => exact absurd rfl hne
      | succ m => rfl
    | succ n =>
      cases k with
      | zero => rfl
      | succ m => exact ih n m r (by omega)

/-! ## The run invariant -/

/-- Invariant of every reachable run state: the counters equal the number of
jobs whose outcome section has run; the job-to-chapter assignment never
changes; the total is the full chapter count; and a job can only have exited
if cancellation was requested. -/
structure RunInv (cs : List ChapterMeta) (s : RunState) : Prop where
  counters : s.completed_chapters + s.failed_chapters = countDone s.jobs
  jobs_fst : s.jobs.map Prod.fst = (chapters_to_translate cs).map Prod.fst
  total : s.total_chapters = cs.length
  exited_cancel : s.should_cancel = false → ∀ j ∈ s.jobs, j.2 ≠ JobPhase.exited

/-- The invariant holds at the start of a run. -/
theorem runInv_init (cs : List ChapterMeta) : RunInv cs (initRunState cs) := by
  refine ⟨?_, ?_, rfl, ?_⟩
  · simp only [initRunState, countDone]
    rw [List.countP_eq_zero.mpr]
    intro a ha
    simp only [List.mem_map] at ha
    obtain ⟨ic, _, hic⟩ := ha
    subst hic
    simp
  · simp [initRunState, List.map_map, Function.comp]
  · intro _ j hj
    simp only [initRunState, List.mem_map] at hj
    obtain ⟨ic, _, hic⟩ := hj
    subst hic
    simp

/-- Each step preserves the invariant. -/
theorem runInv_step {cs : List ChapterMeta} {s t : RunState}
    (hinv : RunInv cs s) (hstep : RunStep s t) : RunInv cs t := by
  cases hstep with
  | cancel =>
    exact ⟨hinv.counters, hinv.jobs_fst, hinv.total, by intro h; simp at h⟩
  | check j idx h =>
    refine ⟨?_, ?_, hinv.total, ?_⟩
    · have hc := countP_set_eq (fun j => decide (j.2 = JobPhase.done)) s.jobs j
        (idx, JobPhase.notStarted)
        (idx, if s.should_cancel then JobPhase.exited else JobPhase.ready) h
      have hnew : (decide ((idx, if s.should_cancel then JobPhase.exited
          else JobPhase.ready).2 = JobPhase.done)) = false := by
        cases hsc : s.should_cancel <;> simp
      simp [hnew] at hc
      have hcount := hinv.counters
      show s.completed_chapters + s.failed_chapters = countDone (s.jobs.set j
        (idx, if s.should_cancel then JobPhase.exited else JobPhase.ready))
      simp only [countDone] at hcount ⊢
      omega
    · show (s.jobs.set j _).map Prod.fst = _
      rw [mapFst_set s.jobs j idx JobPhase.notStarted _ h]
      exact hinv.jobs_fst
    · intro hcf j' hj'
      have hcf' : s.should_cancel = false := hcf
      rcases List.mem_or_eq_of_mem_set hj' with hmem | heq
      · exact hinv.exited_cancel hcf' j' hmem
      · subst heq
        simp [hcf']
  | mark j idx h =>
    refine ⟨?_, ?_, hinv.total, ?_⟩
    · have hc := countP_set_eq (fun j => decide (j.2 = JobPhase.done)) s.jobs j
        (idx, JobPhase.ready) (idx, JobPhase.running) h
      have hcount := hinv.counters
      show s.completed_chapters + s.failed_chapters =
        countDone (s.jobs.set j (idx, JobPhase.running))
      simp only [countDone] at hcount ⊢
      simp at hc
      omega
    · show (s.jobs.set j _).map Prod.fst = _
      rw [mapFst_set s.jobs j idx JobPhase.ready _ h]
      exact hinv.jobs_fst
    · intro hcf j' hj'
      have hcf' : s.should_cancel = false := hcf
      rcases List.mem_or_eq_of_mem_set hj' with hmem | heq
      · exact hinv.exited_cancel hcf' j' hmem
      · subst heq; simp
  | finish j idx r h =>
    refine ⟨?_, ?_, hinv.total, ?_⟩
    · have hc := countP_set_eq (fun j => decide (j.2 = JobPhase.done)) s.jobs j
        (idx, JobPhase.running) (idx, JobPhase.done) h
      have hcount := hinv.counters
      show (s.completed_chapters + if r.success then 1 else 0) +
          (s.failed_chapters + if r.success then 0 else 1) =
        countDone (s.jobs.set j (idx, JobPhase.done))
      simp only [countDone] at hcount ⊢
      simp at hc
      cases hr : r.success <;> simp [hr] <;> omega
    · show (s.jobs.set j _).map Prod.fst = _
      rw [mapFst_set s.jobs j idx JobPhase.running _ h]
      exact hinv.jobs_fst
    · intro hcf j' hj'
      have hcf' : s.should_cancel = false := hcf
      rcases List.mem_or_eq_of_mem_set hj' with hmem | heq
      · exact hinv.exited_cancel hcf' j' hmem
      · subst heq; simp

/-- The invariant holds in every reachable run state. -/
theorem runInv_reachable {cs : List ChapterMeta} {s : RunState}
    (h : Reachable cs s) : RunInv cs s := by
  induction h with
  | refl => exact runInv_init cs
  | tail _ hstep ih => exact runInv_step ih hstep

/-- Cancellation is monotone during a run: no step clears the flag. -/
theorem cancel_monotone {s t : RunState} (hstep : RunStep s t)
    (hc : s.should_cancel = true) : t.should_cancel = true := by
  cases hstep <;> first | rfl | exact hc

/-- Two positions holding different phases are different positions. -/
theorem pos_ne_of_phase_ne {l : List (Nat × JobPhase)} {j k idx kidx : Nat}
    {ph ph' : JobPhase} (hj : l[j]? = some (idx, ph)) (hk : l[k]? = some (kidx, ph'))
    (hne : ph ≠ ph') : j ≠ k := by
  intro h
  subst h
  rw [hj] at hk
  simp only [Option.some.injEq, Prod.mk.injEq] at hk
  exact hne hk.2

/-- With duplicate-free chapter indices, different job positions carry
different chapter indices. -/
theorem idx_ne_of_pos_ne {l : List (Nat × JobPhase)} (hnd : (l.map Prod.fst).Nodup)
    {j k idx kidx : Nat} {ph ph' : JobPhase}
    (hj : l[j]? = some (idx, ph)) (hk : l[k]? = some (kidx, ph'))
    (hjk : j ≠ k) : idx ≠ kidx := by
  intro he
  subst he
  have h1 : (l.map Prod.fst)[j]? = some idx := by rw [List.getElem?_map, hj]; rfl
  have h2 : (l.map Prod.fst)[k]? = some idx := by rw [List.getElem?_map, hk]; rfl
  exact hjk (nodup_getElem?_inj hnd h1 h2)

/-- Relative invariance after cancellation: once the cancel flag is set, a
job still before its line-244 check can only move to `exited`, and its
chapter's status never changes again. -/
theorem cancel_blocked_aux {s t : RunState}
    (h : Relation.ReflTransGen RunStep s t)
    (hnd : (s.jobs.map Prod.fst).Nodup)
    (hc : s.should_cancel = true) (j idx : Nat)
    (hj : s.jobs[j]? = some (idx, JobPhase.notStarted) ∨
          s.jobs[j]? = some (idx, JobPhase.exited)) :
    t.should_cancel = true ∧ (t.jobs.map Prod.fst).Nodup ∧
    (t.jobs[j]? = some (idx, JobPhase.notStarted) ∨
     t.jobs[j]? = some (idx, JobPhase.exited)) ∧
    chapterStatus t.chapters idx = chapterStatus s.chapters idx := by
  induction h with
  | refl => exact ⟨hc, hnd, hj, rfl⟩
  | @tail b c _ hbc ih =>
    obtain ⟨ihc, ihnd, ihj, ihst⟩ := ih
    cases hbc with
    | cancel => exact ⟨rfl, ihnd, ihj, ihst⟩
    | check k kidx hk =>
      refine ⟨ihc, ?_, ?_, ihst⟩
      · show ((b.jobs.set k _).map Prod.fst).Nodup
        rw [mapFst_set b.jobs k kidx _ _ hk]
        exact ihnd
      · by_cases hkj : k = j
        · subst hkj
          have hidx : kidx = idx := by
            rcases ihj with hij | hij <;>
              · rw [hk] at hij
                simp only [Option.some.injEq, Prod.mk.injEq] at hij
                exact hij.1
          subst hidx
          right
          show (b.jobs.set k _)[k]? = _
          rw [List.getElem?_set_self (List.getElem?_eq_some.mp hk).1]
          simp [ihc]
        · have heq : (b.jobs.set k (kidx, if b.should_cancel then JobPhase.exited
              else JobPhase.ready))[j]? = b.jobs[j]? :=
            List.getElem?_set_ne hkj
          show (b.jobs.set k _)[j]? = _ ∨ (b.jobs.set k _)[j]? = _
          rw [heq]
          exact ihj
    | mark k kidx hk =>
      have hkj : j ≠ k := by
        rcases ihj with hij | hij <;> exact pos_ne_of_phase_ne hij hk (by simp)
      refine ⟨ihc, ?_, ?_, ?_⟩
      · show ((b.jobs.set k _).map Prod.fst).Nodup
        rw [mapFst_set b.jobs k kidx _ _ hk]
        exact ihnd
      · have heq : (b.jobs.set k (kidx, JobPhase.running))[j]? = b.jobs[j]? :=
          List.getElem?_set_ne (Ne.symm hkj)
        show (b.jobs.set k _)[j]? = _ ∨ (b.jobs.set k _)[j]? = _
        rw [heq]
        exact ihj
      · have hne : idx ≠ kidx := by
          rcases ihj with hij | hij <;> exact idx_ne_of_pos_ne ihnd hij hk hkj
        show chapterStatus (setChapterStatus b.chapters kidx "in_progress") idx = _
        rw [chapterStatus_setChapterStatus_ne b.chapters kidx idx "in_progress" hne]
        exact ihst
    | finish k kidx r hk =>
      have hkj : j ≠ k := by
        rcases ihj with hij | hij <;> exact pos_ne_of_phase_ne hij hk (by simp)
      refine ⟨ihc, ?_, ?_, ?_⟩
      · show ((b.jobs.set k _).map Prod.fst).Nodup
        rw [mapFst_set b.jobs k kidx _ _ hk]
        exact ihnd
      · have heq : (b.jobs.set k (kidx, JobPhase.done))[j]? = b.jobs[j]? :=
          List.getElem?_set_ne (Ne.symm hkj)
        show (b.jobs.set k _)[j]? = _ ∨ (b.jobs.set k _)[j]? = _
        rw [heq]
        exact ihj
      · have hne : idx ≠ kidx := by
          rcases ihj with hij | hij <;> exact idx_ne_of_pos_ne ihnd hij hk hkj
        show chapterStatus (applyOutcome b.chapters kidx r) idx = _
        rw [chapterStatus_applyOutcome_ne b.chapters kidx idx r hne]
        exact ihst

/-! ## Claims about translation_orchestrator.py -/

/-- A chapter not yet translated, as the controllers create it. -/
def pendChapter : ChapterMeta :=
  { status := some "pending", original_text := "hello" }

/-- A chapter already completed in a prior partial run. -/
def compChapter : ChapterMeta :=
  { status := some "completed", original_text := "done",
    translated_text := some "done-tr" }

/-- The orchestrator as constructed by `__init__`, before any run. -/
def initOrchestratorState : OrchestratorState := {}

/-- An orchestrator with a resolved configuration and one loaded chapter,
ready to start a run. -/
def readyState : OrchestratorState :=
  { active_config_name := some "default", chapters := [pendChapter] }

/-- C2: the spec says `is_running` is false after every terminal outcome,
including failure to create the project directory. In the code that failure
path returns `False` from `start_translation` after `is_running` was already
set at line 68, and the `finally` that clears the flag (lines 223-224)
belongs to the worker thread, which is never started on this path — so
`is_running` stays true forever and every later start is rejected as
"already running". Evaluated here: before any run the flag is false; a start
whose directory setup fails returns `False` yet leaves the flag true. -/
theorem is_running_not_reset_on_fatal_error :
    initOrchestratorState.is_running = false ∧
    (start_translation readyState false).2 = false ∧
    (start_translation readyState false).1.is_running = true :=
  ⟨rfl, by decide, by decide⟩

/-- C3 (amended): in every reachable run state the two counters sum to at
most the total; and in a non-cancelled terminal state (every dispatched job
done or exited) they sum to exactly the number of dispatched jobs — the
chapters **not already completed** at start — which is less than the total
whenever the run resumed over previously completed chapters. -/
theorem run_counter_consistency (cs : List ChapterMeta) (s : RunState)
    (h : Reachable cs s) :
    s.completed_chapters + s.failed_chapters ≤ s.total_chapters ∧
    (s.should_cancel = false →
      (∀ j ∈ s.jobs, j.2 = JobPhase.done ∨ j.2 = JobPhase.exited) →
      s.completed_chapters + s.failed_chapters = (chapters_to_translate cs).length) := by
  have hinv := runInv_reachable h
  constructor
  · rw [hinv.counters, hinv.total]
    calc countDone s.jobs ≤ s.jobs.length := List.countP_le_length _
      _ = (s.jobs.map Prod.fst).length := (List.length_map _ _).symm
      _ = ((chapters_to_translate cs).map Prod.fst).length := by rw [hinv.jobs_fst]
      _ = (chapters_to_translate cs).length := List.length_map _ _
      _ ≤ cs.enum.length := List.length_filter_le _ _
      _ = cs.length := List.enum_length
  · intro hc hterm
    rw [hinv.counters]
    have hall : ∀ j ∈ s.jobs, (fun j => decide (j.2 = JobPhase.done)) j = true := by
      intro j hj
      rcases hterm j hj with hd | he
      · simp [hd]
      · exact absurd he (hinv.exited_cancel hc j hj)
    have hlen := List.countP_eq_length.mpr hall
    rw [countDone, hlen, ← List.length_map s.jobs Prod.fst, hinv.jobs_fst,
      List.length_map]

/-- A single-pending-chapter run and its initial state. -/
def csSingle : List ChapterMeta := [pendChapter]

/-- Witness for C3's amended invariant at the start of a concrete run. -/
theorem run_counter_consistency_witness :
    (initRunState csSingle).completed_chapters + (initRunState csSingle).failed_chapters ≤
      (initRunState csSingle).total_chapters :=
  (run_counter_consistency csSingle (initRunState csSingle)
    Relation.ReflTransGen.refl).1

/-- A resumed run: one chapter already completed before start, one pending. -/
def csResume : List ChapterMeta := [compChapter, pendChapter]

/-- A successful translation outcome used in concrete traces. -/
def okRes : TranslationResult :=
  { success := true, text := some "t", model_used := some "gpt-4" }

/-- The terminal state of the resumed run after its single dispatched job
(chapter index 1) ran to successful completion. -/
def sResumeDone : RunState :=
  { should_cancel := false, completed_chapters := 1, failed_chapters := 0,
    total_chapters := 2,
    chapters := [compChapter,
      { status := some "completed", original_text := "hello",
        translated_text := some "t", model_used := some "gpt-4" }],
    jobs := [(1, JobPhase.done)] }

/-- Counterexample to C3 as stated: a resumed run over one pre-completed and
one pending chapter reaches a non-cancelled terminal state in which
`completed + failed = 1 ≠ 2 = total`, because `total_chapters` counts all
chapters (line 72) while pre-completed chapters are skipped and never
recounted (lines 126-130). -/
theorem run_counter_equality_cex :
    Relation.ReflTransGen RunStep (initRunState csResume) sResumeDone ∧
    sResumeDone.should_cancel = false ∧
    sResumeDone.jobs.all (fun j => decide (j.2 = JobPhase.done ∨ j.2 = JobPhase.exited)) = true ∧
    decide (sResumeDone.completed_chapters + sResumeDone.failed_chapters =
      sResumeDone.total_chapters) = false := by
  refine ⟨?_, by decide, by decide, by decide⟩
  exact Relation.ReflTransGen.tail (Relation.ReflTransGen.tail
    (Relation.ReflTransGen.tail Relation.ReflTransGen.refl
      (RunStep.check (initRunState csResume) 0 1 (by decide)))
    (RunStep.mark _ 0 1 (by decide)))
    (RunStep.finish _ 0 1 okRes (by decide))

/-- C4 (amended): after cancellation is requested, a job that has not yet
passed its line-244 cancellation check never transitions to `in_progress`:
its phase stays `notStarted` or becomes `exited`, and its chapter's status
never changes for the rest of the run; a job already `running` may still
run its outcome section and reach `done` (completed or error). -/
theorem cancel_blocks_pending_start (cs : List ChapterMeta) (s t : RunState)
    (hreach : Reachable cs s) (hc : s.should_cancel = true)
    (h : Relation.ReflTransGen RunStep s t) (j idx : Nat)
    (hj : s.jobs[j]? = some (idx, JobPhase.notStarted)) :
    (t.jobs[j]? = some (idx, JobPhase.notStarted) ∨
     t.jobs[j]? = some (idx, JobPhase.exited)) ∧
    chapterStatus t.chapters idx = chapterStatus s.chapters idx ∧
    (∀ (k kidx : Nat) (r : TranslationResult),
      t.jobs[k]? = some (kidx, JobPhase.running) →
      RunStep t { t with
        jobs := t.jobs.set k (kidx, JobPhase.done),
        chapters := applyOutcome t.chapters kidx r,
        completed_chapters := t.completed_chapters + (if r.success then 1 else 0),
        failed_chapters := t.failed_chapters + (if r.success then 0 else 1) }) := by
  have hinv := runInv_reachable hreach
  have hnd : (s.jobs.map Prod.fst).Nodup := by
    rw [hinv.jobs_fst]
    exact chapters_to_translate_fst_nodup cs
  obtain ⟨_, _, hjt, hst⟩ := cancel_blocked_aux h hnd hc j idx (Or.inl hj)
  exact ⟨hjt, hst, fun k kidx r hk => RunStep.finish t k kidx r hk⟩

/-- The single-chapter run right after an immediate cancellation. -/
def sCancelEarly : RunState :=
  { initRunState csSingle with should_cancel := true }

/-- Witness for C4's amended guarantee: after an immediate cancel, the one
not-yet-checked job is still blocked from starting. -/
theorem cancel_blocks_pending_start_witness :
    sCancelEarly.jobs[0]? = some (0, JobPhase.notStarted) ∨
      sCancelEarly.jobs[0]? = some (0, JobPhase.exited) :=
  (cancel_blocks_pending_start csSingle sCancelEarly sCancelEarly
    (Relation.ReflTransGen.tail Relation.ReflTransGen.refl (RunStep.cancel _))
    rfl Relation.ReflTransGen.refl 0 0 (by decide)).1

/-- The single-chapter run after the job passed its line-244 check and the
user then cancelled: the chapter is still `pending`. -/
def sRaceCancelled : RunState :=
  { should_cancel := true, completed_chapters := 0, failed_chapters := 0,
    total_chapters := 1, chapters := [pendChapter],
    jobs := [(0, JobPhase.ready)] }

/-- The same run one step later: the job wrote `in_progress` after the
cancellation had already returned. -/
def sRaceMarked : RunState :=
  { sRaceCancelled with
    chapters := [{ pendChapter with status := some "in_progress" }],
    jobs := [(0, JobPhase.running)] }

/-- Counterexample to C4 as stated: the cancellation check at line 244 and
the `in_progress` write at line 248 are separate atomic steps with no lock
ordering them against `cancel_translation`, so a job that passed its check
just before the cancel can still take a chapter from `pending` to
`in_progress` after the cancel has returned. -/
theorem cancel_race_cex :
    Relation.ReflTransGen RunStep (initRunState csSingle) sRaceCancelled ∧
    sRaceCancelled.should_cancel = true ∧
    chapterStatus sRaceCancelled.chapters 0 = some "pending" ∧
    RunStep sRaceCancelled sRaceMarked ∧
    chapterStatus sRaceMarked.chapters 0 = some "in_progress" := by
  refine ⟨?_, rfl, rfl, ?_, rfl⟩
  · exact Relation.ReflTransGen.tail (Relation.ReflTransGen.tail
      Relation.ReflTransGen.refl
      (RunStep.check (initRunState csSingle) 0 0 (by decide)))
      (RunStep.cancel _)
  · exact RunStep.mark sRaceCancelled 0 0 (by decide)

/-- An orchestrator whose single loaded chapter has empty text. -/
def emptyTextState : OrchestratorState :=
  { active_config_name := some "cfg1",
    chapters := [{ status := some "pending", original_text := "" }] }

/-- Counterexample to C9 as stated: a chapter with empty text does not cause
a synchronous rejection — `start_translation` checks only the configuration
name and the chapter list (lines 62-66), so the start is accepted and the
run begins. -/
theorem empty_chapter_text_run_starts :
    (start_translation emptyTextState true).2 = true ∧
    (start_translation emptyTextState true).1.is_running = true :=
  ⟨by decide, by decide⟩

/-- C9 (amended): a start with the orchestrator already running, with no
active configuration name, or with no loaded chapters is rejected
synchronously with no state change; a chapter with empty text does not
prevent the start — it fails during the run, inside `_translate_chapter`,
with a "No original text found" error and no provider call. -/
theorem start_rejection_policy (s : OrchestratorState) (setup_ok : Bool)
    (env : Env) (log : List ProviderCall) (meta : ChapterMeta)
    (config : Option Config) (okey gkey : Option String) :
    (s.is_running = true → start_translation s setup_ok = (s, false)) ∧
    (s.is_running = false → truthyS s.active_config_name = false →
      start_translation s setup_ok = (s, false)) ∧
    (s.is_running = false → s.chapters.isEmpty = true →
      start_translation s setup_ok = (s, false)) ∧
    (meta.original_text = "" →
      translate_chapter env log meta config okey gkey =
        ({ success := false, error_message := some "No original text found" }, log)) := by
  refine ⟨?_, ?_, ?_, ?_⟩
  · intro h
    simp [start_translation, h]
  · intro h1 h2
    simp [start_translation, h1, h2]
  · intro h1 h2
    simp [start_translation, h1, h2]
  · intro h
    simp [translate_chapter, h]

/-- Witness for C9's amended policy at concrete states. -/
theorem start_rejection_policy_witness :
    start_translation { initOrchestratorState with is_running := true } true =
      ({ initOrchestratorState with is_running := true }, false) ∧
    start_translation initOrchestratorState true = (initOrchestratorState, false) ∧
    translate_chapter envFailAll [] {} none none none =
      ({ success := false, error_message := some "No original text found" }, []) :=
  ⟨(start_rejection_policy _ true envFailAll [] {} none none none).1 rfl,
   (start_rejection_policy _ true envFailAll [] {} none none none).2.1 rfl rfl,
   (start_rejection_policy initOrchestratorState true envFailAll [] {} none none none).2.2.2 rfl⟩

end NovelTranslate
